import Mathlib

/-!
Shallow embedding of the Wispr recording-session controller (`src/wispr.py`).

The Python module keeps its session state in module-level globals
(`recording`, `connecting`, `connection_active`, `recent_errors`, `stream`,
`ws_app`, `ws_thread`, `stop_event`, `final_transcript`, `last_stop_time`,
`last_error_time`, `recording_start_time`).  We embed those globals as the
fields of `Wispr.WState` and each controller function as a pure state
transformer, with the wall-clock time (`time.time()`) passed in explicitly.
Time is embedded as an integer number of milliseconds: every duration
constant of wispr.py (0.3 s, 0.5 s, 3 s, 10 s, 30 s, the 60 s error window
and the 60 s backoff cap) is an exact number of milliseconds, so all the
timing comparisons of the source are preserved exactly under this scaling.
Handles that the Python code only ever tests for truthiness/liveness
(`stream`, `ws_app`, `ws_app.sock`, `ws_thread.is_alive()`) are embedded
as Booleans.
-/

namespace Wispr

/-- `DEBOUNCE_DELAY = 0.3` seconds (wispr.py line 110), in milliseconds. -/
def DEBOUNCE_DELAY : ℤ := 300

/-- `MIN_RECORDING_DURATION = 0.5` seconds (wispr.py line 111), in ms. -/
def MIN_RECORDING_DURATION : ℤ := 500

/-- `CONNECTION_COOLDOWN = 3.0` seconds (wispr.py line 113), in ms. -/
def CONNECTION_COOLDOWN : ℤ := 3000

/-- `ERROR_COOLDOWN = 10.0` seconds (wispr.py line 114), in ms. -/
def ERROR_COOLDOWN : ℤ := 10000

/-- `POLICY_VIOLATION_COOLDOWN = 30.0` seconds (wispr.py line 115), in ms. -/
def POLICY_VIOLATION_COOLDOWN : ℤ := 30000

/-- The 60-second error window and backoff cap of wispr.py lines 286-292,
in milliseconds. -/
def SIXTY_SECONDS : ℤ := 60000

/-- The module-level mutable state of wispr.py that the session controller
reads and writes (the globals listed at lines 94-136). -/
structure WState where
  recording : Bool
  connecting : Bool
  connection_active : Bool
  recent_errors : Nat
  /-- `stream is not None` (an open PyAudio capture stream exists). -/
  stream_open : Bool
  /-- `ws_app is not None`. -/
  ws_app : Bool
  /-- `ws_app.sock` is truthy (only meaningful while `ws_app` holds). -/
  ws_sock : Bool
  /-- `ws_thread is not None and ws_thread.is_alive()`. -/
  ws_thread_alive : Bool
  /-- `stop_event.is_set()`. -/
  stop_event : Bool
  final_transcript : String
  last_stop_time : ℤ
  last_error_time : ℤ
  recording_start_time : ℤ
  deriving DecidableEq

/-- How a `start_recording()` call returned (wispr.py lines 262-333):
which early-return guard fired, or the session was started, or the
`try` block raised. -/
inductive StartOutcome
  | blockedBusy
  | blockedThread
  | blockedSock
  | blockedCooldown
  | started
  | failed
  deriving DecidableEq

/-- The error-count reset at wispr.py lines 286-287: `recent_errors` is
zeroed when more than 60 seconds have passed since `last_error_time`. -/
def effectiveErrors (now : ℤ) (s : WState) : Nat :=
  if now - s.last_error_time > SIXTY_SECONDS then 0 else s.recent_errors

/-- `cooldown_needed` as computed at wispr.py lines 283-293: the base
`CONNECTION_COOLDOWN`, replaced by `min(ERROR_COOLDOWN * 2**(recent_errors-1), 60.0)`
when there are recent errors less than 60 seconds old. -/
def cooldown_needed (now : ℤ) (s : WState) : ℤ :=
  if 0 < effectiveErrors now s ∧ now - s.last_error_time < SIXTY_SECONDS then
    min (ERROR_COOLDOWN * 2 ^ (effectiveErrors now s - 1)) SIXTY_SECONDS
  else CONNECTION_COOLDOWN

/-- `cleanup_audio()` (wispr.py lines 413-448): sets the stop event, closes
and drops the capture stream, closes and drops the WebSocket app, and drops
the thread reference. -/
def cleanup_audio (s : WState) : WState :=
  { s with stop_event := true, stream_open := false,
           ws_app := false, ws_sock := false, ws_thread_alive := false }

/-- `start_recording()` (wispr.py lines 262-333).  `now` is `time.time()`;
`openOk` models whether the `try` block (microphone open, WebSocket and
thread creation) succeeds or raises. -/
def start_recording (now : ℤ) (openOk : Bool) (s : WState) :
    WState × StartOutcome :=
  if s.recording || s.connecting || s.connection_active then
    (s, .blockedBusy)
  else if s.ws_thread_alive then
    (s, .blockedThread)
  else if s.ws_app && s.ws_sock then
    (s, .blockedSock)
  else
    let s := { s with recent_errors := effectiveErrors now s }
    if now - s.last_stop_time < cooldown_needed now s then
      (s, .blockedCooldown)
    else
      let s := { s with connecting := true, recording := false,
                        final_transcript := "", stop_event := false }
      if openOk then
        ({ s with stream_open := true, ws_app := true, ws_sock := true,
                  ws_thread_alive := true }, .started)
      else
        -- the `except` branch at lines 329-333; the exception is modelled
        -- as raised by `audio.open`, before any handle was assigned
        ({ s with connecting := false, recording := false,
                  connection_active := false }, .failed)

/-- `on_ws_open(ws)` (wispr.py lines 181-201): the `Connecting → Recording`
transition; records the actual recording start time. -/
def on_ws_open (now : ℤ) (s : WState) : WState :=
  { s with connecting := false, recording := true, connection_active := true,
           recording_start_time := now }

/-- `on_ws_error(ws, error)` (wispr.py lines 237-244): aborts to idle,
setting the stop event and clearing the three session flags; it touches
neither `recent_errors` nor `last_error_time`. -/
def on_ws_error (s : WState) : WState :=
  { s with stop_event := true, recording := false, connecting := false,
           connection_active := false }

/-- `on_ws_close(ws, close_status_code, close_msg)` (wispr.py lines 246-260).
Only a close with status code 1008 does error bookkeeping; every close
clears the session flags and runs `cleanup_audio`. -/
def on_ws_close (now : ℤ) (code : Option Nat) (s : WState) : WState :=
  let s :=
    if code = some 1008 then
      { s with recent_errors := s.recent_errors + 1, last_error_time := now,
               last_stop_time :=
                 now + POLICY_VIOLATION_COOLDOWN - CONNECTION_COOLDOWN }
    else s
  cleanup_audio { s with recording := false, connecting := false,
                         connection_active := false }

/-- The finalize tail of `stop_recording()` (wispr.py lines 360-411): drop
the flags, record `last_stop_time`, send termination and close the
WebSocket, paste a non-empty transcript, clear it, and clean up. -/
def stopFinalize (now : ℤ) (s : WState) : WState × Option String :=
  let s := { s with recording := false, connecting := false,
                    connection_active := false, recording_start_time := 0,
                    last_stop_time := now }
  -- lines 376-401: `if ws_app:` → stop_event.set(), close, join, and in
  -- `finally` drop `ws_app`/`ws_thread`
  let s := if s.ws_app then
             { s with stop_event := true, ws_app := false, ws_sock := false,
                      ws_thread_alive := false }
           else s
  let pasted : Option String :=
    if s.final_transcript ≠ "" then some s.final_transcript else none
  let s := if s.final_transcript ≠ "" then { s with final_transcript := "" }
           else s
  (cleanup_audio s, pasted)

/-- `stop_recording()` (wispr.py lines 335-411).  Returns the new state and
`some text` exactly when `paste_text(text)` was invoked. -/
def stop_recording (now : ℤ) (s : WState) : WState × Option String :=
  if !s.recording && !s.connecting && !s.connection_active then
    (s, none)
  else if 0 < s.recording_start_time then
    if now - s.recording_start_time < MIN_RECORDING_DURATION then
      -- recording too short: drop flags, reset the start time, clean up,
      -- and return without touching `final_transcript` (lines 347-354)
      (cleanup_audio { s with recording := false, connecting := false,
                              connection_active := false,
                              recording_start_time := 0 }, none)
    else
      stopFinalize now s
  else if s.connecting then
    -- still connecting: ignore the rapid stop (lines 355-358)
    (s, none)
  else
    stopFinalize now s

/-- An accepted trigger edge: `down` spawns a `start_recording` thread,
`up` spawns a `stop_recording` thread (wispr.py lines 523-534). -/
inductive Edge
  | down
  | up
  deriving DecidableEq

/-- The part of the global state that the key-event `handler` reads and
writes: `trigger_pressed` and `last_trigger_time`. -/
structure TState where
  trigger_pressed : Bool
  last_trigger_time : ℤ
  deriving DecidableEq

/-- `handler(event)` (wispr.py lines 495-557) for the default
`TRIGGER_KEY = 'fn'`, on a trigger-key event: `now` is `time.time()` and
`pressed` is `is_fn_pressed(flags)`.  The debounce check at line 507 fires
before any polarity logic; `last_trigger_time` is updated only on accepted
edges.  (`handler_active` only guards same-thread re-entry and is always
false at entry in this sequential model.)  Returns `some edge` when an
edge was accepted and acted upon, `none` when the event was dropped. -/
def handler (now : ℤ) (pressed : Bool) (s : TState) : TState × Option Edge :=
  if now - s.last_trigger_time < DEBOUNCE_DELAY then
    (s, none)
  else if pressed && !s.trigger_pressed then
    ({ trigger_pressed := true, last_trigger_time := now }, some .down)
  else if !pressed && s.trigger_pressed then
    ({ trigger_pressed := false, last_trigger_time := now }, some .up)
  else
    (s, none)

/-- One delivery step: feed the raw event `e = (timestamp, pressed)` to
`handler` and append the accepted edge, if any, to the log. -/
def stepEdges (p : TState × List Edge) (e : ℤ × Bool) : TState × List Edge :=
  let q := handler e.1 e.2 p.1
  (q.1, p.2 ++ q.2.toList)

/-- Deliver a sequence of raw `(timestamp, pressed)` trigger events to
`handler` in order, collecting the accepted edges. -/
def runEdges (s : TState) (evs : List (ℤ × Bool)) : TState × List Edge :=
  evs.foldl stepEdges (s, [])

/-- An inbound WebSocket message, as discriminated by `on_ws_message`
(wispr.py lines 203-235): `Begin`, `Turn{transcript, turn_is_formatted}`,
or `Termination`. -/
inductive WsMessage
  | begin (id : String)
  | turn (transcript : String) (formatted : Bool)
  | termination
  deriving DecidableEq

/-- Python's `str.strip()` with no argument: remove whitespace from both
ends of the string (used on the turn transcript at wispr.py line 216). -/
def pyStrip (s : String) : String :=
  ⟨((s.data.dropWhile Char.isWhitespace).reverse.dropWhile
      Char.isWhitespace).reverse⟩

/-- The accumulator append at wispr.py lines 220-223: `final_transcript`
gains a joining space exactly when it is already non-empty. -/
def joinStep (acc transcript_text : String) : String :=
  if acc ≠ "" then acc ++ " " ++ transcript_text else transcript_text

/-- The transcript-accumulation step of `on_ws_message` (wispr.py lines
213-228): a formatted (final) turn whose stripped text is non-empty is
appended to `final_transcript` via `joinStep`; everything else leaves the
accumulator unchanged. -/
def on_ws_message (acc : String) (m : WsMessage) : String :=
  match m with
  | .turn transcript true =>
      let transcript_text := pyStrip transcript
      if transcript_text ≠ "" then joinStep acc transcript_text
      else acc
  | _ => acc

/-- Process a sequence of inbound messages in arrival order, starting from
accumulator `acc`. -/
def runMessages (acc : String) (ms : List WsMessage) : String :=
  ms.foldl on_ws_message acc

/-- The final segments a message sequence contributes: the stripped text of
each formatted turn, with empty strips dropped. -/
def finalSegments (ms : List WsMessage) : List String :=
  ms.filterMap fun m =>
    match m with
    | .turn transcript true =>
        let s := pyStrip transcript
        if s = "" then none else some s
    | _ => none

/-- Modelled from the spec: "ordered sequence of finalized text segments,
joined with a single space on append" — segments joined in order with one
space between consecutive segments. -/
def joinedWithSpace : List String → String
  | [] => ""
  | [s] => s
  | s :: t :: r => s ++ " " ++ joinedWithSpace (t :: r)

/-- The externally visible actions of `paste_text` in order (wispr.py
lines 450-493). -/
inductive PasteEvent
  | writeClip (text : String)
  | pasteKeystroke
  | restoreClip (text : String)
  | clearClip
  deriving DecidableEq

/-- `paste_text(text)` (wispr.py lines 450-493) acting on the system
clipboard, embedded as an `Option String` (`none` = no string content).
`setOk` models the `pasteboard.setString_forType_` success flag checked at
line 465.  The saved "original" clipboard follows Python truthiness at
line 458: an empty string counts as no content.  Returns the final
clipboard content and the trace of actions performed. -/
def paste_text (text : String) (setOk : Bool) (clip : Option String) :
    Option String × List PasteEvent :=
  let original : Option String :=
    match clip with
    | some s => if s = "" then none else some s
    | none => none
  -- `pasteboard.clearContents()` then `setString_forType_(text, ...)`
  if !setOk then
    -- failed to set the clipboard: early return with the clipboard cleared
    (none, [])
  else
    -- clipboard now holds `text`; the paste keystroke is issued; then the
    -- clipboard is cleared and the original restored when one was saved
    match original with
    | some orig =>
        (some orig, [.writeClip text, .pasteKeystroke, .restoreClip orig])
    | none =>
        (none, [.writeClip text, .pasteKeystroke, .clearClip])

/-! ## Concrete states used by witnesses and counterexamples -/

/-- A fully idle state: no session flags, no handles, empty transcript. -/
def idleState : WState :=
  { recording := false, connecting := false, connection_active := false,
    recent_errors := 0, stream_open := false, ws_app := false,
    ws_sock := false, ws_thread_alive := false, stop_event := true,
    final_transcript := "", last_stop_time := 0, last_error_time := 0,
    recording_start_time := 0 }

/-- A mid-session recording state, as established by `on_ws_open` at
t = 100000 ms, with one accumulated segment. -/
def activeState : WState :=
  { recording := true, connecting := false, connection_active := true,
    recent_errors := 0, stream_open := true, ws_app := true,
    ws_sock := true, ws_thread_alive := true, stop_event := false,
    final_transcript := "hello", last_stop_time := 0, last_error_time := 0,
    recording_start_time := 100000 }

/-- An idle state with three recent errors, the last one at t = 100000 ms. -/
def errState : WState :=
  { recording := false, connecting := false, connection_active := false,
    recent_errors := 3, stream_open := false, ws_app := false,
    ws_sock := false, ws_thread_alive := false, stop_event := true,
    final_transcript := "", last_stop_time := 100000,
    last_error_time := 100000, recording_start_time := 0 }

/-! ## Helper lemmas -/

/-- Re-applying the 60-second error reset after `recent_errors` has already
been replaced by its reset value changes nothing, so the cooldown computed
from the updated state (as the Python code does at lines 290-292, after the
reset at lines 286-287) agrees with `cooldown_needed` of the entry state. -/
theorem cooldown_needed_update (now : ℤ) (s : WState) :
    cooldown_needed now { s with recent_errors := effectiveErrors now s } =
      cooldown_needed now s := by
  unfold cooldown_needed effectiveErrors
  by_cases h : now - s.last_error_time > SIXTY_SECONDS <;> simp [h]

/-- The cooldown-rejection path of `start_recording` (wispr.py lines
295-297): with no session in progress and no leftover thread or socket,
a call inside the required cooldown returns `blockedCooldown`, having
changed nothing but the 60-second error-count reset. -/
theorem start_recording_cooldown_blocked (now : ℤ) (openOk : Bool)
    (s : WState)
    (hr : s.recording = false) (hc : s.connecting = false)
    (ha : s.connection_active = false) (ht : s.ws_thread_alive = false)
    (hw : (s.ws_app && s.ws_sock) = false)
    (hcd : now - s.last_stop_time < cooldown_needed now s) :
    start_recording now openOk s =
      ({ s with recent_errors := effectiveErrors now s },
        StartOutcome.blockedCooldown) := by
  unfold start_recording
  rw [hr, hc, ha, ht, hw]
  simp only [Bool.or_self, Bool.false_or, if_false, Bool.false_eq_true,
    ite_false]
  rw [if_pos]
  show now - s.last_stop_time <
    cooldown_needed now { s with recent_errors := effectiveErrors now s }
  rw [cooldown_needed_update]
  exact hcd

/-- Whatever the error history, the enforced cooldown is at least the base
`CONNECTION_COOLDOWN`: the backoff branch yields at least `ERROR_COOLDOWN`. -/
theorem cooldown_needed_ge (now : ℤ) (s : WState) :
    CONNECTION_COOLDOWN ≤ cooldown_needed now s := by
  unfold cooldown_needed
  split
  · refine le_min ?_ (by norm_num [CONNECTION_COOLDOWN, SIXTY_SECONDS])
    have hp : (0 : ℤ) < 2 ^ (effectiveErrors now s - 1) :=
      pow_pos (by norm_num) _
    have h1 : (1 : ℤ) ≤ 2 ^ (effectiveErrors now s - 1) := hp
    have h2 : ERROR_COOLDOWN ≤ ERROR_COOLDOWN * 2 ^ (effectiveErrors now s - 1) :=
      le_mul_of_one_le_right (by norm_num [ERROR_COOLDOWN]) h1
    have h3 : CONNECTION_COOLDOWN ≤ ERROR_COOLDOWN := by
      norm_num [CONNECTION_COOLDOWN, ERROR_COOLDOWN]
    linarith
  · exact le_refl _

/-- If `start_recording` gets past its cooldown check (any outcome other
than `blockedCooldown`, given that the earlier guards pass), then at least
the base cooldown has elapsed since `last_stop_time`. -/
theorem start_min_cooldown (T : ℤ) (openOk : Bool) (s : WState)
    (hr : s.recording = false) (hc : s.connecting = false)
    (ha : s.connection_active = false) (ht : s.ws_thread_alive = false)
    (hw : (s.ws_app && s.ws_sock) = false)
    (h : (start_recording T openOk s).2 ≠ StartOutcome.blockedCooldown) :
    s.last_stop_time + CONNECTION_COOLDOWN ≤ T := by
  by_cases hcd : T - s.last_stop_time < cooldown_needed T s
  · exact absurd
      (by rw [start_recording_cooldown_blocked T openOk s hr hc ha ht hw hcd])
      h
  · push_neg at hcd
    have := cooldown_needed_ge T s
    linarith

/-! ## Claim C1 -/

/-- Claim C1: a `start_recording()` call made while any of `recording`,
`connecting`, or `connection_active` is true returns at the first guard
with the state completely unchanged — no session flag changes, the
transcript accumulator is kept, no capture stream or WebSocket is created,
and nothing is queued (the state records no trace of the request). -/
theorem start_noop_while_session_active (now : ℤ) (openOk : Bool)
    (s : WState)
    (h : s.recording = true ∨ s.connecting = true ∨
      s.connection_active = true) :
    start_recording now openOk s = (s, StartOutcome.blockedBusy) := by
  unfold start_recording
  rcases h with h | h | h <;> rw [h] <;> simp

/-- Witness for C1 at the concrete mid-session state `activeState`. -/
theorem start_noop_while_session_active_witness :
    activeState.recording = true ∧
    start_recording 100000 true activeState =
      (activeState, StartOutcome.blockedBusy) :=
  ⟨rfl, start_noop_while_session_active 100000 true activeState (Or.inl rfl)⟩

/-! ## Claim C2 -/

/-- Claim C2: past the session-in-progress guards, the delay
`start_recording()` enforces since `last_stop_time` is the base
`CONNECTION_COOLDOWN` (3 s) when `recent_errors` is zero or the last error
is more than 60 s old, and `min(ERROR_COOLDOWN * 2^(recent_errors-1), 60 s)`
when there is a recent error less than 60 s old; a call inside that delay
returns `blockedCooldown` without starting a session. -/
theorem start_cooldown_policy (now : ℤ) (openOk : Bool) (s : WState)
    (hr : s.recording = false) (hc : s.connecting = false)
    (ha : s.connection_active = false) (ht : s.ws_thread_alive = false)
    (hw : (s.ws_app && s.ws_sock) = false) :
    ((s.recent_errors = 0 ∨ SIXTY_SECONDS < now - s.last_error_time) →
        cooldown_needed now s = CONNECTION_COOLDOWN)
    ∧ (0 < s.recent_errors → now - s.last_error_time < SIXTY_SECONDS →
        cooldown_needed now s =
          min (ERROR_COOLDOWN * 2 ^ (s.recent_errors - 1)) SIXTY_SECONDS)
    ∧ (now - s.last_stop_time < cooldown_needed now s →
        (start_recording now openOk s).2 = StartOutcome.blockedCooldown) := by
  refine ⟨?_, ?_, ?_⟩
  · rintro (h | h)
    · unfold cooldown_needed effectiveErrors
      simp [h]
    · unfold cooldown_needed effectiveErrors
      simp [h]
  · intro h1 h2
    have h3 : ¬ now - s.last_error_time > SIXTY_SECONDS := by linarith
    unfold cooldown_needed effectiveErrors
    simp [h3, h1, h2]
  · intro hcd
    rw [start_recording_cooldown_blocked now openOk s hr hc ha ht hw hcd]

/-- Witness for C2: three errors 10 s old give a 40 s backoff cooldown, and
a start 10 s after the last stop is rejected. -/
theorem start_cooldown_policy_witness :
    cooldown_needed 110000 errState =
      min (ERROR_COOLDOWN * 2 ^ (errState.recent_errors - 1)) SIXTY_SECONDS ∧
    cooldown_needed 110000 errState = 40000 ∧
    (start_recording 110000 true errState).2 =
      StartOutcome.blockedCooldown := by
  have h := start_cooldown_policy 110000 true errState rfl rfl rfl rfl rfl
  exact ⟨h.2.1 (by decide) (by decide), by decide, h.2.2 (by decide)⟩

/-! ## Claim C8 -/

/-- Claim C8: a `start_recording()` rejected by the cooldown check leaves
the session state untouched — the three session flags, the transcript
accumulator, the stop event, the capture stream and both WebSocket handles
all keep their values (only the 60-second error-count reset may have
fired). -/
theorem cooldown_rejection_atomic (now : ℤ) (openOk : Bool) (s : WState)
    (hr : s.recording = false) (hc : s.connecting = false)
    (ha : s.connection_active = false) (ht : s.ws_thread_alive = false)
    (hw : (s.ws_app && s.ws_sock) = false)
    (hcd : now - s.last_stop_time < cooldown_needed now s) :
    (start_recording now openOk s).2 = StartOutcome.blockedCooldown
    ∧ (start_recording now openOk s).1.recording = s.recording
    ∧ (start_recording now openOk s).1.connecting = s.connecting
    ∧ (start_recording now openOk s).1.connection_active =
        s.connection_active
    ∧ (start_recording now openOk s).1.final_transcript = s.final_transcript
    ∧ (start_recording now openOk s).1.stop_event = s.stop_event
    ∧ (start_recording now openOk s).1.stream_open = s.stream_open
    ∧ (start_recording now openOk s).1.ws_app = s.ws_app
    ∧ (start_recording now openOk s).1.ws_sock = s.ws_sock
    ∧ (start_recording now openOk s).1.ws_thread_alive =
        s.ws_thread_alive := by
  rw [start_recording_cooldown_blocked now openOk s hr hc ha ht hw hcd]
  exact ⟨rfl, rfl, rfl, rfl, rfl, rfl, rfl, rfl, rfl, rfl⟩

/-- Witness for C8: a start 1 s after the last stop at `idleState` shifted
to `last_stop_time = 109000` is rejected with all listed fields intact. -/
theorem cooldown_rejection_atomic_witness :
    (start_recording 110000 true
        { idleState with last_stop_time := 109000 }).2 =
      StartOutcome.blockedCooldown ∧
    (start_recording 110000 true
        { idleState with last_stop_time := 109000 }).1.final_transcript =
      ({ idleState with last_stop_time := 109000 } : WState).final_transcript := by
  have h := cooldown_rejection_atomic 110000 true
    { idleState with last_stop_time := 109000 } rfl rfl rfl rfl rfl (by decide)
  exact ⟨h.1, h.2.2.2.2.1⟩

/-! ## Claim C6 -/

/-- On the finalize path, the returned paste action is `some` of the entry
transcript exactly when that transcript is non-empty, and the accumulator
is empty afterwards. -/
theorem stopFinalize_transcript (now : ℤ) (s : WState) :
    (stopFinalize now s).2 =
      (if s.final_transcript = "" then none else some s.final_transcript)
    ∧ (stopFinalize now s).1.final_transcript = "" := by
  unfold stopFinalize cleanup_audio
  cases hwa : s.ws_app <;> by_cases hft : s.final_transcript = "" <;>
    simp [hwa, hft]

/-- A `stop_recording` call that is not a no-op, not a short tap and not a
connecting-phase rejection runs the finalize tail. -/
theorem stop_recording_reaches_finalize (now : ℤ) (s : WState)
    (hact : s.recording = true ∨ s.connecting = true ∨
      s.connection_active = true)
    (hdur : 0 < s.recording_start_time →
      MIN_RECORDING_DURATION ≤ now - s.recording_start_time)
    (hconn : s.recording_start_time ≤ 0 → s.connecting = false) :
    stop_recording now s = stopFinalize now s := by
  unfold stop_recording
  have hguard : (!s.recording && !s.connecting && !s.connection_active)
      = false := by
    rcases hact with h | h | h <;> simp [h]
  rw [hguard]
  by_cases hrst : 0 < s.recording_start_time
  · have hd : ¬ now - s.recording_start_time < MIN_RECORDING_DURATION :=
      not_lt.2 (hdur hrst)
    simp [hrst, hd]
  · have hcf : s.connecting = false := hconn (not_lt.1 hrst)
    simp [hrst, hcf]

/-- Claim C6: every `stop_recording()` call that reaches the finalize path
with a non-empty transcript accumulator invokes `paste_text` exactly once,
with the full accumulated text, and clears the accumulator; with an empty
accumulator it does not invoke `paste_text` at all. -/
theorem finalize_paste_exactly_once (now : ℤ) (s : WState)
    (hact : s.recording = true ∨ s.connecting = true ∨
      s.connection_active = true)
    (hdur : 0 < s.recording_start_time →
      MIN_RECORDING_DURATION ≤ now - s.recording_start_time)
    (hconn : s.recording_start_time ≤ 0 → s.connecting = false) :
    (s.final_transcript ≠ "" →
        (stop_recording now s).2 = some s.final_transcript ∧
        (stop_recording now s).1.final_transcript = "")
    ∧ (s.final_transcript = "" → (stop_recording now s).2 = none) := by
  rw [stop_recording_reaches_finalize now s hact hdur hconn]
  have h := stopFinalize_transcript now s
  constructor
  · intro hft
    refine ⟨?_, h.2⟩
    rw [h.1, if_neg hft]
  · intro hft
    rw [h.1, if_pos hft]

/-- Witness for C6: stopping `activeState` 600 ms after recording began
pastes "hello" exactly once and clears the accumulator. -/
theorem finalize_paste_exactly_once_witness :
    (stop_recording 100600 activeState).2 = some "hello" ∧
    (stop_recording 100600 activeState).1.final_transcript = "" := by
  have h := finalize_paste_exactly_once 100600 activeState (Or.inl rfl)
    (fun _ => by decide) (fun hle => by exact absurd hle (by decide))
  exact (h.1 (by decide))

/-! ## Claim C3 (corrected) -/

/-- Counterexample to C3 as stated: stopping `activeState` 200 ms into the
recording (under the 500 ms minimum) leaves `final_transcript = "hello"` —
the short-tap path does not clear the transcript accumulator. -/
theorem short_stop_keeps_transcript_cex :
    activeState.recording = true ∧
    (0 : ℤ) < activeState.recording_start_time ∧
    (100200 : ℤ) - activeState.recording_start_time <
      MIN_RECORDING_DURATION ∧
    activeState.final_transcript = "hello" ∧
    (stop_recording 100200 activeState).1.final_transcript = "hello" := by
  decide

/-- Claim C3 as amended: a `stop_recording()` during an active recording
before `MIN_RECORDING_DURATION` has elapsed drops all three session flags,
resets `recording_start_time`, releases the audio and WebSocket resources,
never invokes `paste_text` — and leaves the transcript accumulator
unchanged (it is cleared only by the next accepted `start_recording()`). -/
theorem short_stop_amended (now : ℤ) (s : WState)
    (hrec : s.recording = true) (hrst : 0 < s.recording_start_time)
    (hdur : now - s.recording_start_time < MIN_RECORDING_DURATION) :
    stop_recording now s =
      ({ s with recording := false, connecting := false,
                connection_active := false, recording_start_time := 0,
                stop_event := true, stream_open := false, ws_app := false,
                ws_sock := false, ws_thread_alive := false }, none)
    ∧ (stop_recording now s).1.final_transcript = s.final_transcript := by
  unfold stop_recording cleanup_audio
  rw [hrec]
  simp [hrst, hdur]

/-- Witness for the amended C3 at `activeState`, 200 ms in. -/
theorem short_stop_amended_witness :
    (stop_recording 100200 activeState).2 = none ∧
    (stop_recording 100200 activeState).1.final_transcript =
      activeState.final_transcript := by
  have h := short_stop_amended 100200 activeState rfl (by decide) (by decide)
  exact ⟨by rw [h.1], h.2⟩

/-! ## Claim C4 (corrected) -/

/-- Once an edge has been accepted at time `t0`, every further event less
than `DEBOUNCE_DELAY` after `t0` is dropped without changing state. -/
theorem runEdges_stall (t0 : ℤ) (b : Bool) (acc : List Edge) :
    ∀ evs : List (ℤ × Bool), (∀ e ∈ evs, e.1 - t0 < DEBOUNCE_DELAY) →
      evs.foldl stepEdges (⟨b, t0⟩, acc) = (⟨b, t0⟩, acc) := by
  intro evs
  induction evs with
  | nil => intro _; rfl
  | cons e t ih =>
      intro h
      have he : e.1 - t0 < DEBOUNCE_DELAY := h e (List.mem_cons_self e t)
      rw [List.foldl_cons]
      have hstep : stepEdges (⟨b, t0⟩, acc) e = (⟨b, t0⟩, acc) := by
        simp [stepEdges, handler, he]
      rw [hstep]
      exact ih fun x hx => h x (List.mem_cons_of_mem e hx)

/-- Counterexample to C4 as stated: deliver a Down edge at t = 100000 ms
and an Up edge 100 ms later (inside the 300 ms window).  The claim says
exactly one Down and one Up are accepted; the code accepts only the Down
and silently drops the Up. -/
theorem debounce_first_edge_only_cex :
    ((100100 : ℤ) - 100000 < DEBOUNCE_DELAY) ∧
    (runEdges ⟨false, 0⟩ [(100000, true), (100100, false)]).2 =
      [Edge.down] := by
  decide

/-- Claim C4 as amended: in any burst whose first edge is accepted and
whose remaining events all arrive within `DEBOUNCE_DELAY` of that first
edge, exactly the first edge (of whichever polarity) is accepted and acted
upon; every later event of the burst is silently dropped, not queued and
not retried (the handler state retains no trace of them). -/
theorem debounce_only_first_edge (s : TState) (t0 : ℤ) (p0 : Bool)
    (rest : List (ℤ × Bool))
    (hpol : s.trigger_pressed = !p0)
    (hdeb : ¬ t0 - s.last_trigger_time < DEBOUNCE_DELAY)
    (hfast : ∀ e ∈ rest, e.1 - t0 < DEBOUNCE_DELAY) :
    runEdges s ((t0, p0) :: rest) =
      (⟨p0, t0⟩, [if p0 then Edge.down else Edge.up]) := by
  unfold runEdges
  rw [List.foldl_cons]
  have hstep : stepEdges (s, []) (t0, p0) =
      (⟨p0, t0⟩, [if p0 then Edge.down else Edge.up]) := by
    cases p0 <;> simp [stepEdges, handler, hdeb, hpol]
  rw [hstep]
  exact runEdges_stall t0 p0 _ rest hfast

/-- Witness for the amended C4: a Down at t = 100000 ms followed by an Up
and another Down inside the window yields exactly one accepted Down. -/
theorem debounce_only_first_edge_witness :
    runEdges ⟨false, 0⟩ [(100000, true), (100100, false), (100200, true)] =
      (⟨true, 100000⟩, [Edge.down]) := by
  have h := debounce_only_first_edge ⟨false, 0⟩ 100000 true
    [(100100, false), (100200, true)] rfl (by decide) (by decide)
  simpa using h

/-! ## Claim C5 (corrected) -/

/-- Counterexample to C5 as stated: a mid-session stream error at
`activeState` (and likewise an abnormal close with status 1006) leaves
`recent_errors` at 0 and `last_error_time` untouched — generic
`StreamDropped` events do not count toward the backoff. -/
theorem stream_drop_not_counted_cex :
    activeState.recording = true ∧
    activeState.recent_errors = 0 ∧
    (on_ws_error activeState).recent_errors = 0 ∧
    (on_ws_error activeState).last_error_time =
      activeState.last_error_time ∧
    (on_ws_close 100300 (some 1006) activeState).recent_errors = 0 := by
  decide

/-- Claim C5 as amended: mid-session stream errors and closes abort the
session to idle (all three flags cleared), but only a close with status
code 1008 counts as an error for backoff — `on_ws_error` and every
non-1008 `on_ws_close` leave `recent_errors`, `last_error_time` and
`last_stop_time` unchanged, while a 1008 close increments `recent_errors`
and records `last_error_time`.  Three consecutive generic stream drops
therefore leave the next `start_recording()` at the base cooldown; only
1008 closes build the exponential backoff. -/
theorem stream_drop_amended (now : ℤ) (code : Option Nat) (s : WState) :
    on_ws_error s =
      { s with stop_event := true, recording := false, connecting := false,
               connection_active := false }
    ∧ (code ≠ some 1008 →
        (on_ws_close now code s).recent_errors = s.recent_errors ∧
        (on_ws_close now code s).last_error_time = s.last_error_time ∧
        (on_ws_close now code s).last_stop_time = s.last_stop_time)
    ∧ ((on_ws_close now (some 1008) s).recent_errors =
          s.recent_errors + 1 ∧
        (on_ws_close now (some 1008) s).last_error_time = now)
    ∧ ((on_ws_close now code s).recording = false ∧
        (on_ws_close now code s).connecting = false ∧
        (on_ws_close now code s).connection_active = false) := by
  refine ⟨rfl, ?_, ⟨rfl, rfl⟩, ?_⟩
  · intro h
    unfold on_ws_close cleanup_audio
    simp [h]
  · exact ⟨rfl, rfl, rfl⟩

/-- Witness for the amended C5: a 1006 close does not count, a 1008 close
does. -/
theorem stream_drop_amended_witness :
    (on_ws_close 100300 (some 1006) activeState).recent_errors =
      activeState.recent_errors ∧
    (on_ws_close 100300 (some 1008) activeState).recent_errors =
      activeState.recent_errors + 1 := by
  have h := stream_drop_amended 100300 (some 1006) activeState
  exact ⟨(h.2.1 (by decide)).1, h.2.2.1.1⟩

/-! ## Claim C7 -/

/-- `runMessages` only ever folds the stripped, non-empty final segments
into the accumulator: it equals a `joinStep` fold over `finalSegments`. -/
theorem runMessages_eq_foldl (ms : List WsMessage) :
    ∀ acc, runMessages acc ms = (finalSegments ms).foldl joinStep acc := by
  induction ms with
  | nil => intro acc; rfl
  | cons m t ih =>
      intro acc
      cases m with
      | begin id =>
          simpa [runMessages, finalSegments, List.filterMap_cons,
            on_ws_message] using ih acc
      | termination =>
          simpa [runMessages, finalSegments, List.filterMap_cons,
            on_ws_message] using ih acc
      | turn tr fm =>
          cases fm with
          | false =>
              simpa [runMessages, finalSegments, List.filterMap_cons,
                on_ws_message] using ih acc
          | true =>
              by_cases hs : pyStrip tr = ""
              · simpa [runMessages, finalSegments, List.filterMap_cons,
                  on_ws_message, hs] using ih acc
              · simpa [runMessages, finalSegments, List.filterMap_cons,
                  on_ws_message, hs] using ih (joinStep acc (pyStrip tr))

/-- Prepending `a ++ " "` to the head of a joined list is the same as
joining with `a` in front. -/
theorem joinedWithSpace_cons_cons (a s : String) (t : List String) :
    joinedWithSpace ((a ++ " " ++ s) :: t) =
      a ++ " " ++ joinedWithSpace (s :: t) := by
  cases t with
  | nil => rfl
  | cons x r => simp [joinedWithSpace, String.append_assoc]

/-- A string with a space appended is never empty. -/
theorem append_space_ne_empty (a b : String) : a ++ " " ++ b ≠ "" := by
  intro h
  have hlen := congrArg String.length h
  rw [String.length_append, String.length_append] at hlen
  have h1 : (" " : String).length = 1 := rfl
  have h2 : ("" : String).length = 0 := rfl
  omega

/-- Folding `joinStep` from a non-empty accumulator joins the accumulator
and the segments with single spaces. -/
theorem foldl_joinStep_ne (l : List String) :
    ∀ a : String, a ≠ "" → l.foldl joinStep a = joinedWithSpace (a :: l) := by
  induction l with
  | nil => intro a _; rfl
  | cons s t ih =>
      intro a ha
      rw [List.foldl_cons]
      have hj : joinStep a s = a ++ " " ++ s := by simp [joinStep, ha]
      rw [hj, ih _ (append_space_ne_empty a s), joinedWithSpace_cons_cons]
      rfl

/-- Every entry of `finalSegments` is a non-empty string. -/
theorem finalSegments_ne_empty (ms : List WsMessage) :
    ∀ x ∈ finalSegments ms, x ≠ "" := by
  intro x hx
  rcases List.mem_filterMap.1 hx with ⟨m, _, hf⟩
  cases m with
  | begin id => simp [finalSegments] at hf
  | termination => simp [finalSegments] at hf
  | turn tr fm =>
      cases fm with
      | false => simp at hf
      | true =>
          by_cases hs : pyStrip tr = ""
          · simp [hs] at hf
          · simp [hs] at hf
            rw [← hf]
            exact hs

/-- Claim C7: processing any sequence of inbound messages from a cleared
accumulator leaves exactly the stripped non-empty final segments joined in
order with single spaces; non-final turns and final turns that strip to
empty leave the accumulator unchanged. -/
theorem transcript_accumulation :
    (∀ ms : List WsMessage,
        runMessages "" ms = joinedWithSpace (finalSegments ms))
    ∧ (∀ acc tr, on_ws_message acc (WsMessage.turn tr false) = acc)
    ∧ (∀ acc tr, pyStrip tr = "" →
        on_ws_message acc (WsMessage.turn tr true) = acc) := by
  refine ⟨?_, fun acc tr => rfl, ?_⟩
  · intro ms
    rw [runMessages_eq_foldl]
    cases hseg : finalSegments ms with
    | nil => rfl
    | cons s t =>
        have hs : s ≠ "" :=
          finalSegments_ne_empty ms s (hseg ▸ List.mem_cons_self s t)
        rw [List.foldl_cons]
        have h0 : joinStep "" s = s := by simp [joinStep]
        rw [h0]
        exact foldl_joinStep_ne t s hs
  · intro acc tr h
    simp [on_ws_message, h]

/-- Witness for C7: the segments "hello" and "world" (the latter arriving
padded), with a whitespace-only final turn and a non-final turn in
between, accumulate to exactly "hello world". -/
theorem transcript_accumulation_witness :
    runMessages ""
        [WsMessage.turn "hello" true, WsMessage.turn "  " true,
         WsMessage.turn "mid" false, WsMessage.turn " world " true] =
      "hello world" ∧
    on_ws_message "a" (WsMessage.turn "  " true) = "a" := by
  refine ⟨?_, transcript_accumulation.2.2 "a" "  " (by decide)⟩
  rw [transcript_accumulation.1]
  decide

/-! ## Claim C9 -/

/-- Claim C9: for a non-empty transcript, a `paste_text` call that
completes without failure restores the clipboard to its prior content when
that content was a non-empty string, and leaves the clipboard cleared when
there was no prior content (Python truthiness treats a prior empty string
as no content); in between it wrote the transcript to the clipboard and
issued the synthetic paste keystroke. -/
theorem paste_roundtrip (text : String) (clip : Option String)
    (_htext : text ≠ "") :
    ((∀ s, clip = some s → s ≠ "" → (paste_text text true clip).1 = clip)
      ∧ ((clip = none ∨ clip = some "") →
          (paste_text text true clip).1 = none))
    ∧ (paste_text text true clip).2.take 2 =
        [PasteEvent.writeClip text, PasteEvent.pasteKeystroke] := by
  rcases clip with _ | s
  · simp [paste_text]
  · by_cases hs : s = "" <;> simp [paste_text, hs]

/-- Witness for C9: pasting "hi" restores a saved clipboard "old", clears
an empty clipboard, and writes then pastes in between. -/
theorem paste_roundtrip_witness :
    (paste_text "hi" true (some "old")).1 = some "old" ∧
    (paste_text "hi" true none).1 = none ∧
    (paste_text "hi" true (some "old")).2.take 2 =
      [PasteEvent.writeClip "hi", PasteEvent.pasteKeystroke] := by
  have h1 := paste_roundtrip "hi" (some "old") (by decide)
  have h2 := paste_roundtrip "hi" none (by decide)
  exact ⟨h1.1.1 "old" rfl (by decide), h2.1.2 (Or.inl rfl), h1.2⟩

/-! ## Claim C10 -/

/-- Claim C10: a WebSocket close with status 1008 increments
`recent_errors`, records `last_error_time`, and sets `last_stop_time` to
`now + POLICY_VIOLATION_COOLDOWN - CONNECTION_COOLDOWN` (27 s in the
future), so that any later `start_recording()` that gets past the cooldown
check happens at least `POLICY_VIOLATION_COOLDOWN` (30 s) after the
close. -/
theorem policy_violation_close (now : ℤ) (s : WState) :
    ((on_ws_close now (some 1008) s).recent_errors = s.recent_errors + 1
      ∧ (on_ws_close now (some 1008) s).last_error_time = now
      ∧ (on_ws_close now (some 1008) s).last_stop_time =
          now + POLICY_VIOLATION_COOLDOWN - CONNECTION_COOLDOWN
      ∧ (on_ws_close now (some 1008) s).last_stop_time = now + 27000)
    ∧ (∀ (T : ℤ) (openOk : Bool),
        (start_recording T openOk (on_ws_close now (some 1008) s)).2 ≠
          StartOutcome.blockedCooldown →
        now + POLICY_VIOLATION_COOLDOWN ≤ T) := by
  refine ⟨⟨rfl, rfl, rfl, ?_⟩, ?_⟩
  · show now + POLICY_VIOLATION_COOLDOWN - CONNECTION_COOLDOWN = now + 27000
    unfold POLICY_VIOLATION_COOLDOWN CONNECTION_COOLDOWN
    ring
  · intro T openOk h
    have hmin := start_min_cooldown T openOk (on_ws_close now (some 1008) s)
      rfl rfl rfl rfl rfl h
    have hl : (on_ws_close now (some 1008) s).last_stop_time =
        now + POLICY_VIOLATION_COOLDOWN - CONNECTION_COOLDOWN := rfl
    rw [hl] at hmin
    linarith

/-- Witness for C10: after a 1008 close at t = 0, a start at t = 100 s is
not cooldown-blocked, and indeed 100 s ≥ 30 s. -/
theorem policy_violation_close_witness :
    (start_recording 100000 true (on_ws_close 0 (some 1008) idleState)).2 ≠
      StartOutcome.blockedCooldown ∧
    (0 : ℤ) + POLICY_VIOLATION_COOLDOWN ≤ 100000 := by
  refine ⟨by decide, (policy_violation_close 0 idleState).2 100000 true
    (by decide)⟩

end Wispr
